import Mathlib

/-!
Shallow embedding of the asynchronous clip-generation tracking subsystem of
flash-story-lab: the `check-clips-status` edge function (batch status
reconciliation over the persisted job-status map), the `generate-clips` edge
function (batch submission), and the client-side polling loop
`startPollingClipStatus`.

The persisted job-status map (`clips` column) is modelled as an association
list `List (String × String)` from job handle (task UUID) to a status value,
which is an artifact URL, `"pending"`, or `"failed"`.  JavaScript optional
string fields are modelled as `Option String`, with explicit helpers for
truthiness and `||`.
-/

namespace FlashStoryLab

/-- Character-list prefix test, the computational core of `strStartsWith`. -/
def charsPrefix : List Char → List Char → Bool
  | [], _ => true
  | _ :: _, [] => false
  | c :: cs, d :: ds => c == d && charsPrefix cs ds

/-- Model of JavaScript `String.prototype.startsWith` (and of Lean's own
`String.startsWith`, which does not reduce in the kernel), computed on the
underlying character lists. -/
def strStartsWith (s pat : String) : Bool :=
  charsPrefix pat.data s.data

/-- JavaScript truthiness of an optional string slot:
`undefined`/`null`/`""` are falsy. -/
def jsTruthy : Option String → Bool
  | none => false
  | some s => s != ""

/-- JavaScript `a || b` on optional string slots. -/
def jsOr (a b : Option String) : Option String :=
  if jsTruthy a then a else b

/-! ## Status Prober (`checkJobStatus`, check-clips-status/index.ts lines 158–205) -/

/-- One element of the provider's `getTaskStatus` response body. -/
structure TaskResult where
  status : Option String := none
  videoURL : Option String := none
  outputURL : Option String := none
  error : Option String := none
deriving DecidableEq

/-- The provider response as observed by `checkJobStatus`: either an
HTTP-level failure (`!response.ok`), or a parsed body.  A body that is `null`
or not an array is rejected on the same path as an empty array, so it is
modelled as `body []`. -/
inductive RunwareStatusResponse where
  | httpError (text : String)
  | body (items : List TaskResult)
deriving DecidableEq

/-- Return shape of `checkJobStatus`. -/
structure CheckStatus where
  status : String
  videoUrl : Option String := none
  error : Option String := none
deriving DecidableEq

/-- `checkJobStatus` (lines 158–205): throws (`Except.error`) on an HTTP
error or a missing first element; otherwise normalizes the provider status:
`completed ↦ completed + videoURL || outputURL`; `failed`/`error` ↦ `failed`;
anything else ↦ `pending`. -/
def checkJobStatus : RunwareStatusResponse → Except String CheckStatus
  | .httpError text => .error ("Runware API error: " ++ text)
  | .body [] => .error "Invalid response from Runware API"
  | .body (taskResult :: _) =>
    if taskResult.status = some "completed" then
      .ok { status := "completed", videoUrl := jsOr taskResult.videoURL taskResult.outputURL }
    else if taskResult.status = some "failed" ∨ taskResult.status = some "error" then
      .ok { status := "failed", error := jsOr taskResult.error (some "Unknown error") }
    else
      .ok { status := "pending" }

/-- A whole probe: the network fetch itself may reject (modelled by the
`net` function returning `Except.error`), and the normalization may throw. -/
def runProbe (net : String → Except String RunwareStatusResponse) (taskUUID : String) :
    Except String CheckStatus :=
  net taskUUID >>= checkJobStatus

/-! ## Batch Reconciler (check-clips-status/index.ts lines 53–137) -/

/-- The skip condition of the reconciler (line 55): a persisted value is
terminal when it is an artifact URL (starts with `"http"`) or the sentinel
`"failed"`.  Map values are strings, so the `typeof` guard always holds. -/
def isTerminal (v : String) : Bool :=
  strStartsWith v "http" || v == "failed"

/-- One element of the `results` array (the object literals built in
`statusChecks`, lines 53–81). -/
structure JobCheck where
  jobId : String
  status : String
  videoUrl : Option String := none
  error : Option String := none
  alreadyProcessed : Bool
deriving DecidableEq

/-- One element of `statusChecks` (lines 53–81): a terminal entry is skipped
and reported `alreadyProcessed`; otherwise the probe runs, a thrown probe
error being caught and recorded as status `"error"`. -/
def statusCheck (probe : String → Except String CheckStatus)
    (jobId currentValue : String) : JobCheck :=
  if strStartsWith currentValue "http" || currentValue == "failed" then
    { jobId := jobId
      status := if strStartsWith currentValue "http" then "completed" else "failed"
      videoUrl := if strStartsWith currentValue "http" then some currentValue else none
      alreadyProcessed := true }
  else
    match probe jobId with
    | .ok s =>
      { jobId := jobId, status := s.status, videoUrl := s.videoUrl, error := s.error
        alreadyProcessed := false }
    | .error e =>
      { jobId := jobId, status := "error", error := some e, alreadyProcessed := false }

/-- `results = await Promise.all(statusChecks)` (line 83): entrywise status
check over the persisted map. -/
def statusChecksOf (probe : String → Except String CheckStatus)
    (clips : List (String × String)) : List JobCheck :=
  clips.map fun kv => statusCheck probe kv.1 kv.2

/-- The value stored into `updatedClips` for one result (lines 89–103). -/
def mergedValue (r : JobCheck) : String :=
  if r.status == "completed" && jsTruthy r.videoUrl then r.videoUrl.getD ""
  else if r.status == "failed" then "failed"
  else "pending"

/-- Whether one result sets `hasUpdates` (lines 92–99): a fresh completion
or a fresh failure, never an `alreadyProcessed` entry. -/
def triggersUpdate (r : JobCheck) : Bool :=
  ((r.status == "completed" && jsTruthy r.videoUrl) || r.status == "failed")
    && !r.alreadyProcessed

/-- The rebuilt `updatedClips` map (lines 86–103). -/
def updatedClipsOf (results : List JobCheck) : List (String × String) :=
  results.map fun r => (r.jobId, mergedValue r)

/-- The `hasUpdates` flag after the merge loop (lines 87–103). -/
def hasUpdatesOf (results : List JobCheck) : Bool :=
  results.any triggersUpdate

/-- Number of store update calls issued by one pass: the single conditional
write at lines 106–120. -/
def storeWrites (probe : String → Except String CheckStatus)
    (clips : List (String × String)) : Nat :=
  if hasUpdatesOf (statusChecksOf probe clips) then 1 else 0

/-- The persisted map after one reconciliation pass: replaced by
`updatedClips` when `hasUpdates`, untouched otherwise. -/
def persistedAfter (probe : String → Except String CheckStatus)
    (clips : List (String × String)) : List (String × String) :=
  if hasUpdatesOf (statusChecksOf probe clips) then
    updatedClipsOf (statusChecksOf probe clips)
  else clips

/-- `completedCount` (line 123). -/
def completedCountOf (results : List JobCheck) : Nat :=
  results.countP fun r => r.status == "completed"

/-- `pendingCount` (line 124). -/
def pendingCountOf (results : List JobCheck) : Nat :=
  results.countP fun r => r.status == "pending"

/-- `failedCount` (line 125): provider-failed jobs and probe-error jobs. -/
def failedCountOf (results : List JobCheck) : Nat :=
  results.countP fun r => r.status == "failed" || r.status == "error"

/-- The success response body of the `check-clips-status` endpoint
(lines 127–142). -/
structure StatusResponse where
  total_clips : Nat
  completed : Nat
  pending : Nat
  failed : Nat
  clips : List (String × String)
deriving DecidableEq

/-- The `check-clips-status` core: run all status checks, rebuild the map,
and report the counts (lines 53–142). -/
def checkClipsStatus (probe : String → Except String CheckStatus)
    (clips : List (String × String)) : StatusResponse :=
  let results := statusChecksOf probe clips
  { total_clips := results.length
    completed := completedCountOf results
    pending := pendingCountOf results
    failed := failedCountOf results
    clips := updatedClipsOf results }

/-- Iterated reconciliation passes over the persisted map, one probe
function per pass. -/
def iteratePasses : List (String → Except String CheckStatus) →
    List (String × String) → List (String × String)
  | [], clips => clips
  | probe :: probes, clips => iteratePasses probes (persistedAfter probe clips)

/-! ## Generation Gateway (`generate-clips/index.ts`) -/

/-- One element of the Runware SDK `videoInference` response. -/
structure SdkItem where
  taskUUID : Option String := none
  id : Option String := none
  videoURL : Option String := none
  outputURL : Option String := none
  status : Option String := none
deriving DecidableEq

/-- Return shape of `initiateVideoGeneration`. -/
structure VideoResult where
  taskUUID : String
  videoURL : Option String := none
  status : String
deriving DecidableEq

/-- `initiateVideoGeneration` (generate-clips/index.ts lines 187–253), after
the SDK call returned: throws on an empty/non-array response or a missing
task UUID; otherwise extracts `taskUUID || id`, `videoURL || outputURL`, and
`status || "pending"`.  A `null` or non-array response is modelled as `[]`
(same throw path). -/
def initiateVideoGeneration (response : List SdkItem) : Except String VideoResult :=
  match response with
  | [] => .error "Invalid response from Runware SDK"
  | result :: _ =>
    let taskUUID := jsOr result.taskUUID result.id
    if jsTruthy taskUUID then
      .ok { taskUUID := taskUUID.getD ""
            videoURL := jsOr result.videoURL result.outputURL
            status := (jsOr result.status (some "pending")).getD "pending" }
    else .error "No taskUUID in response"

/-- One submission: the SDK call may itself reject (`sdk` returning
`Except.error`), and `initiateVideoGeneration` may throw. -/
def submitScene (sdk : String → Except String (List SdkItem)) (sceneKey : String) :
    Except String VideoResult :=
  sdk sceneKey >>= initiateVideoGeneration

/-- One element of the `results` array of `generate-clips`
(the object literals at lines 108 and 111). -/
structure UnitResult where
  sceneKey : String
  taskUUID : Option String := none
  success : Bool
  videoURL : Option String := none
  error : Option String := none
deriving DecidableEq

/-- One element of `videoPromises` (lines 83–113): the per-unit result
together with the entry the callback writes into `clips` (lines 100–106).
The catch at line 109 isolates a unit's failure: it yields a
`success := false` result and writes nothing into `clips`. -/
def sceneSubmission (sdk : String → Except String (List SdkItem)) (sceneKey : String) :
    UnitResult × Option (String × String) :=
  match submitScene sdk sceneKey with
  | .ok v =>
    ({ sceneKey := sceneKey, taskUUID := some v.taskUUID, success := true
       videoURL := v.videoURL },
     some (v.taskUUID, if jsTruthy v.videoURL then v.videoURL.getD "" else "pending"))
  | .error e =>
    ({ sceneKey := sceneKey, success := false, error := some e }, none)

/-- `results = await Promise.all(videoPromises)` (line 116). -/
def generateResults (sdk : String → Except String (List SdkItem))
    (sceneKeys : List String) : List UnitResult :=
  sceneKeys.map fun k => (sceneSubmission sdk k).1

/-- The `clips` map persisted by `generate-clips` (lines 80–129): entries
written by the successful submission callbacks, in scene order. -/
def generateClipsMap (sdk : String → Except String (List SdkItem))
    (sceneKeys : List String) : List (String × String) :=
  sceneKeys.filterMap fun k => (sceneSubmission sdk k).2

/-- The success response body of `generate-clips` (lines 143–159). -/
structure GenerateResponse where
  total_clips : Nat
  completed : Nat
  pending : Nat
  failed : Nat
  all_complete : Bool
  clips : List (String × String)
deriving DecidableEq

/-- The `generate-clips` core (lines 78–159): submit every scene, count
fast-path completions / pending handles / failed units, persist the map. -/
def generateClips (sdk : String → Except String (List SdkItem))
    (sceneKeys : List String) : GenerateResponse :=
  let results := generateResults sdk sceneKeys
  let completedCount := results.countP fun r => r.success && jsTruthy r.videoURL
  let pendingCount := results.countP fun r => r.success && !jsTruthy r.videoURL
  let failedCount := results.countP fun r => !r.success
  { total_clips := results.countP fun r => r.success
    completed := completedCount
    pending := pendingCount
    failed := failedCount
    all_complete := (pendingCount == 0) && (failedCount == 0)
    clips := generateClipsMap sdk sceneKeys }

/-! ## Poll Scheduler (`startPollingClipStatus`, CreateVideoModal lines 118–170) -/

/-- What one invocation of the `poll` closure observes from
`check-clips-status`: an invoke-level error, a falsy/unsuccessful body, a
successful body with counts, or a thrown exception. -/
inductive PollOutcome where
  | invokeError (msg : String)
  | noData
  | response (success : Bool) (completed total pending : Nat)
  | thrown (msg : String)
deriving DecidableEq

/-- Observable behaviour of one firing of `poll`: whether it actually
invoked `check-clips-status`, the `(completed, total, allDone)` triple it
reported to `onProgress`, and whether it armed `setTimeout` for another
iteration. -/
structure PollStep where
  invoked : Bool
  report : Option (Nat × Nat × Bool)
  reschedule : Bool
deriving DecidableEq

/-- One firing of the `poll` closure (lines 125–161) with the current value
of the `active` flag: a cancelled loop returns at once; an invoke error or a
falsy/unsuccessful body ends the loop; a successful body reports progress
and reschedules iff jobs are still pending; a thrown exception reschedules. -/
def pollIteration (active : Bool) (o : PollOutcome) : PollStep :=
  if !active then { invoked := false, report := none, reschedule := false }
  else
    match o with
    | .invokeError _ => { invoked := true, report := none, reschedule := false }
    | .noData => { invoked := true, report := none, reschedule := false }
    | .response success completed total pending =>
      if success then
        let allDone := pending == 0
        { invoked := true, report := some (completed, total, allDone)
          reschedule := !allDone && active }
      else { invoked := true, report := none, reschedule := false }
    | .thrown _ => { invoked := true, report := none, reschedule := active }

/-- The chain of `poll` firings driven by `setTimeout`: iteration `i` runs
with `active = (i < cancelAt)`, i.e. the cleanup function returned by
`startPollingClipStatus` is invoked just before iteration `cancelAt` fires
(an iteration already in flight completes; cancellation flips the flag
between iterations).  The trace supplies each iteration's outcome; the chain
stops when an iteration does not reschedule. -/
def pollRun (cancelAt : Nat) : Nat → List PollOutcome → List PollStep
  | _, [] => []
  | i, o :: os =>
    if (pollIteration (decide (i < cancelAt)) o).reschedule then
      pollIteration (decide (i < cancelAt)) o :: pollRun cancelAt (i + 1) os
    else [pollIteration (decide (i < cancelAt)) o]

/-! ## Specification-side predicates used as hypotheses -/

/-- A value of the persisted job-status map as the data model describes it:
`"pending"`, or a terminal value (`"failed"` or an artifact URL). -/
def WellFormedValue (v : String) : Prop :=
  v = "pending" ∨ isTerminal v = true

/-- The probe reports artifact URLs that are URLs: any `videoUrl` attached
to a `"completed"` probe result starts with `"http"`. -/
def GoodProbe (probe : String → Except String CheckStatus) : Prop :=
  ∀ j s, probe j = .ok s → s.status = "completed" →
    ∀ u, s.videoUrl = some u → strStartsWith u "http" = true

/-- Concrete probe whose every call reports `"pending"`; used to
instantiate theorems at concrete inputs. -/
def pendProbe : String → Except String CheckStatus :=
  fun _ => .ok { status := "pending" }

/-- Concrete probe whose every call throws; used to instantiate theorems at
concrete inputs. -/
def errProbe : String → Except String CheckStatus :=
  fun _ => .error "network unreachable"

/-! ## Helper lemmas -/

lemma ne_empty_of_strStartsWith_http {v : String}
    (h : strStartsWith v "http" = true) : v ≠ "" := by
  rintro rfl
  exact absurd h (by decide)

lemma ne_pending_of_strStartsWith_http {v : String}
    (h : strStartsWith v "http" = true) : v ≠ "pending" := by
  rintro rfl
  exact absurd h (by decide)

lemma statusCheck_jobId (probe : String → Except String CheckStatus)
    (k v : String) : (statusCheck probe k v).jobId = k := by
  unfold statusCheck
  split
  · rfl
  · cases probe k <;> rfl

lemma statusCheck_terminal (probe : String → Except String CheckStatus)
    {k v : String} (h : isTerminal v = true) :
    statusCheck probe k v =
      { jobId := k
        status := if strStartsWith v "http" then "completed" else "failed"
        videoUrl := if strStartsWith v "http" then some v else none
        alreadyProcessed := true } := by
  unfold isTerminal at h
  unfold statusCheck
  rw [if_pos h]

lemma statusCheck_probeError (probe : String → Except String CheckStatus)
    {k v e : String} (ht : isTerminal v = false) (hp : probe k = .error e) :
    statusCheck probe k v =
      { jobId := k, status := "error", error := some e, alreadyProcessed := false } := by
  unfold isTerminal at ht
  unfold statusCheck
  rw [if_neg (by simp [ht]), hp]

lemma statusCheck_probeOk (probe : String → Except String CheckStatus)
    {k v : String} {s : CheckStatus} (ht : isTerminal v = false) (hp : probe k = .ok s) :
    statusCheck probe k v =
      { jobId := k, status := s.status, videoUrl := s.videoUrl, error := s.error
        alreadyProcessed := false } := by
  unfold isTerminal at ht
  unfold statusCheck
  rw [if_neg (by simp [ht]), hp]

lemma mergedValue_terminal (probe : String → Except String CheckStatus)
    {k v : String} (h : isTerminal v = true) :
    mergedValue (statusCheck probe k v) = v := by
  rw [statusCheck_terminal probe h]
  by_cases hs : strStartsWith v "http" = true
  · have hbne : (v != "") = true := bne_iff_ne.mpr (ne_empty_of_strStartsWith_http hs)
    simp [mergedValue, hs, jsTruthy, hbne]
  · have hv : v = "failed" := by
      have h' := h
      unfold isTerminal at h'
      simpa [hs] using h'
    subst hv
    simp [mergedValue, hs]

lemma updatedClips_getElem (probe : String → Except String CheckStatus)
    (clips : List (String × String)) {i : Nat} {k v : String}
    (h : clips[i]? = some (k, v)) :
    (updatedClipsOf (statusChecksOf probe clips))[i]? =
      some (k, mergedValue (statusCheck probe k v)) := by
  unfold updatedClipsOf statusChecksOf
  rw [List.map_map, List.getElem?_map, h]
  simp [statusCheck_jobId]

lemma persistedAfter_getElem_terminal (probe : String → Except String CheckStatus)
    (clips : List (String × String)) {i : Nat} {k v : String}
    (h : clips[i]? = some (k, v)) (ht : isTerminal v = true) :
    (persistedAfter probe clips)[i]? = some (k, v) := by
  unfold persistedAfter
  split
  · rw [updatedClips_getElem probe clips h, mergedValue_terminal probe ht]
  · exact h

lemma mem_of_getElem_eq {α : Type} {l : List α} {i : Nat} {a : α}
    (h : l[i]? = some a) : a ∈ l := by
  induction l generalizing i with
  | nil => simp at h
  | cons x xs ih =>
    cases i with
    | zero =>
      rw [List.getElem?_cons_zero, Option.some_inj] at h
      exact h ▸ List.mem_cons_self x xs
    | succ n =>
      rw [List.getElem?_cons_succ] at h
      exact List.mem_cons_of_mem x (ih h)

lemma triggersUpdate_eq_changed (probe : String → Except String CheckStatus)
    {k v : String} (hwf : WellFormedValue v)
    (hpr : ∀ s, probe k = .ok s → s.status = "completed" →
      ∀ u, s.videoUrl = some u → strStartsWith u "http" = true) :
    triggersUpdate (statusCheck probe k v) =
      (!(isTerminal v) && (mergedValue (statusCheck probe k v) != v)) := by
  by_cases ht : isTerminal v = true
  · rw [statusCheck_terminal probe ht, ht]
    simp [triggersUpdate]
  · have htf : isTerminal v = false := by simpa using ht
    have hv : v = "pending" := hwf.resolve_right (by simp [htf])
    subst hv
    rw [htf]
    cases hp : probe k with
    | error e =>
      rw [statusCheck_probeError probe htf hp]
      rfl
    | ok s =>
      rw [statusCheck_probeOk probe htf hp]
      by_cases hc : s.status = "completed"
      · by_cases htr : jsTruthy s.videoUrl = true
        · obtain ⟨u, hu⟩ : ∃ u, s.videoUrl = some u := by
            cases hvu : s.videoUrl with
            | none => rw [hvu] at htr; exact absurd htr (by decide)
            | some u => exact ⟨u, rfl⟩
          have hune : u ≠ "pending" :=
            ne_pending_of_strStartsWith_http (hpr s hp hc u hu)
          have hune' : u ≠ "" := by
            rw [hu] at htr
            simpa [jsTruthy] using htr
          have hbne1 : (u != "") = true := bne_iff_ne.mpr hune'
          have hbne2 : (u != "pending") = true := bne_iff_ne.mpr hune
          simp [triggersUpdate, mergedValue, hc, hu, jsTruthy, hbne1, hbne2]
        · have htrf : jsTruthy s.videoUrl = false := by simpa using htr
          simp [triggersUpdate, mergedValue, hc, htrf]
      · by_cases hf : s.status = "failed"
        · simp [triggersUpdate, mergedValue, hc, hf]
        · simp [triggersUpdate, mergedValue, hc, hf]

lemma hasUpdates_eq_any_changed (probe : String → Except String CheckStatus)
    (clips : List (String × String))
    (hwf : ∀ kv ∈ clips, WellFormedValue kv.2) (hpr : GoodProbe probe) :
    hasUpdatesOf (statusChecksOf probe clips) =
      clips.any fun kv =>
        !(isTerminal kv.2) && (mergedValue (statusCheck probe kv.1 kv.2) != kv.2) := by
  induction clips with
  | nil => rfl
  | cons kv rest ih =>
    have h1 := triggersUpdate_eq_changed probe
      (hwf kv (List.mem_cons_self kv rest)) (fun s => hpr kv.1 s)
    simp only [hasUpdatesOf, statusChecksOf, List.map_cons, List.any_cons]
    rw [h1]
    have h2 := ih fun x hx => hwf x (List.mem_cons_of_mem kv hx)
    simp only [hasUpdatesOf, statusChecksOf] at h2
    rw [h2]

lemma countP_or_split (l : List JobCheck) :
    l.countP (fun r => r.status == "failed" || r.status == "error") =
      l.countP (fun r => r.status == "failed") +
        l.countP (fun r => r.status == "error") := by
  induction l with
  | nil => rfl
  | cons r rest ih =>
    by_cases hf : r.status = "failed"
    · simp [List.countP_cons, hf, ih]
      omega
    · by_cases he : r.status = "error"
      · simp [List.countP_cons, hf, he, ih]
        omega
      · simp [List.countP_cons, hf, he, ih]

/-! ## Claim theorems -/

/-- **C2**: an entry of the persisted map whose value is already an artifact
URL (starts with `"http"`) or `"failed"` is never probed — its status check
does not depend on the probe at all — and it is reported with
`alreadyProcessed = true` and its value carried over unchanged into
`updatedClips`. -/
theorem terminal_skips_probe (probe probe' : String → Except String CheckStatus)
    (k v : String) (h : isTerminal v = true) :
    statusCheck probe k v = statusCheck probe' k v ∧
    (statusCheck probe k v).alreadyProcessed = true ∧
    mergedValue (statusCheck probe k v) = v := by
  refine ⟨?_, ?_, mergedValue_terminal probe h⟩
  · rw [statusCheck_terminal probe h, statusCheck_terminal probe' h]
  · rw [statusCheck_terminal probe h]

/-- Witness for `terminal_skips_probe` at a concrete URL-valued entry. -/
theorem terminal_skips_probe_witness :
    isTerminal "http://cdn/x.mp4" = true ∧
    statusCheck errProbe "j1" "http://cdn/x.mp4" = statusCheck pendProbe "j1" "http://cdn/x.mp4" ∧
    (statusCheck errProbe "j1" "http://cdn/x.mp4").alreadyProcessed = true ∧
    mergedValue (statusCheck errProbe "j1" "http://cdn/x.mp4") = "http://cdn/x.mp4" := by
  have H := terminal_skips_probe errProbe pendProbe "j1" "http://cdn/x.mp4" (by decide)
  exact ⟨by decide, H.1, H.2.1, H.2.2⟩

/-- **C3**: job statuses only move forward.  A persisted entry whose value
is terminal (an artifact URL or `"failed"`) is left exactly unchanged, at
its position, by any number of reconciliation passes, whatever each pass's
probe returns; only `"pending"` entries can change. -/
theorem terminal_stable_over_passes (probes : List (String → Except String CheckStatus))
    (clips : List (String × String)) (i : Nat) (k v : String)
    (h : clips[i]? = some (k, v)) (ht : isTerminal v = true) :
    (iteratePasses probes clips)[i]? = some (k, v) := by
  induction probes generalizing clips with
  | nil => exact h
  | cons p ps ih => exact ih _ (persistedAfter_getElem_terminal p clips h ht)

/-- Witness for `terminal_stable_over_passes`: two passes (one erroring
probe, one all-pending probe) over a map with a completed and a failed
entry. -/
theorem terminal_stable_over_passes_witness :
    [("j1", "http://cdn/x.mp4"), ("j2", "failed")][1]? = some ("j2", "failed") ∧
    isTerminal "failed" = true ∧
    (iteratePasses [errProbe, pendProbe]
        [("j1", "http://cdn/x.mp4"), ("j2", "failed")])[1]? = some ("j2", "failed") :=
  ⟨by decide, by decide,
    terminal_stable_over_passes [errProbe, pendProbe]
      [("j1", "http://cdn/x.mp4"), ("j2", "failed")] 1 "j2" "failed" (by decide) (by decide)⟩

/-- **C5**: a job whose probe throws is recorded with status `"error"`, does
not set `hasUpdates` (a probe error alone never triggers the store write),
and its persisted value stays `"pending"` after the pass. -/
theorem probeError_keeps_pending (probe : String → Except String CheckStatus)
    (clips : List (String × String)) (i : Nat) (k e : String)
    (h : clips[i]? = some (k, "pending")) (hp : probe k = .error e) :
    (statusCheck probe k "pending").status = "error" ∧
    triggersUpdate (statusCheck probe k "pending") = false ∧
    (persistedAfter probe clips)[i]? = some (k, "pending") := by
  have hsc := statusCheck_probeError probe (v := "pending") (by decide) hp
  refine ⟨by rw [hsc], by rw [hsc]; rfl, ?_⟩
  unfold persistedAfter
  split
  · rw [updatedClips_getElem probe clips h, hsc]
    rfl
  · exact h

/-- Witness for `probeError_keeps_pending` at a singleton pending map whose
probe throws. -/
theorem probeError_keeps_pending_witness :
    [("j1", "pending")][0]? = some ("j1", "pending") ∧
    errProbe "j1" = .error "network unreachable" ∧
    (statusCheck errProbe "j1" "pending").status = "error" ∧
    triggersUpdate (statusCheck errProbe "j1" "pending") = false ∧
    (persistedAfter errProbe [("j1", "pending")])[0]? = some ("j1", "pending") := by
  have H := probeError_keeps_pending errProbe [("j1", "pending")] 0 "j1"
    "network unreachable" (by decide) rfl
  exact ⟨by decide, rfl, H.1, H.2.1, H.2.2⟩

/-- **C9**: one reconciliation pass preserves the key set (in fact the key
sequence) of the job-status map, both in the returned `updatedClips` and in
the persisted map, whichever branch of the conditional write runs. -/
theorem refresh_preserves_keys (probe : String → Except String CheckStatus)
    (clips : List (String × String)) :
    (updatedClipsOf (statusChecksOf probe clips)).map Prod.fst = clips.map Prod.fst ∧
    (persistedAfter probe clips).map Prod.fst = clips.map Prod.fst := by
  have h1 : (updatedClipsOf (statusChecksOf probe clips)).map Prod.fst =
      clips.map Prod.fst := by
    simp [updatedClipsOf, statusChecksOf, statusCheck_jobId]
  refine ⟨h1, ?_⟩
  unfold persistedAfter
  split
  · exact h1
  · rfl

/-- **C1**: over a well-formed job-status map (values `"pending"`,
`"failed"`, or artifact URLs) with a probe that reports genuine URLs, the
store update is invoked (exactly once) iff at least one probed candidate's
merged value differs from its prior value; and when every candidate
resolves to pending or a probe error, zero writes are issued and the
persisted map is unchanged. -/
theorem storeWrites_iff_changed (probe : String → Except String CheckStatus)
    (clips : List (String × String))
    (hwf : ∀ kv ∈ clips, WellFormedValue kv.2) (hpr : GoodProbe probe) :
    (storeWrites probe clips = 1 ↔
      ∃ kv ∈ clips, isTerminal kv.2 = false ∧
        mergedValue (statusCheck probe kv.1 kv.2) ≠ kv.2) ∧
    ((∀ kv ∈ clips, isTerminal kv.2 = false →
        (∃ s, probe kv.1 = .ok s ∧ s.status = "pending") ∨ ∃ e, probe kv.1 = .error e) →
      storeWrites probe clips = 0 ∧ persistedAfter probe clips = clips) := by
  have hany := hasUpdates_eq_any_changed probe clips hwf hpr
  have hiff : hasUpdatesOf (statusChecksOf probe clips) = true ↔
      ∃ kv ∈ clips, isTerminal kv.2 = false ∧
        mergedValue (statusCheck probe kv.1 kv.2) ≠ kv.2 := by
    rw [hany, List.any_eq_true]
    constructor
    · rintro ⟨kv, hm, hkv⟩
      simp only [Bool.and_eq_true, Bool.not_eq_true', bne_iff_ne] at hkv
      exact ⟨kv, hm, hkv⟩
    · rintro ⟨kv, hm, hnt, hne⟩
      refine ⟨kv, hm, ?_⟩
      simp only [Bool.and_eq_true, Bool.not_eq_true', bne_iff_ne]
      exact ⟨hnt, hne⟩
  constructor
  · unfold storeWrites
    constructor
    · intro h1
      apply hiff.mp
      by_contra hb
      rw [if_neg hb] at h1
      exact absurd h1 (by decide)
    · intro hex
      rw [if_pos (hiff.mpr hex)]
  · intro hall
    have hnone : ¬ ∃ kv ∈ clips, isTerminal kv.2 = false ∧
        mergedValue (statusCheck probe kv.1 kv.2) ≠ kv.2 := by
      rintro ⟨kv, hm, hnt, hne⟩
      have hv : kv.2 = "pending" := (hwf kv hm).resolve_right (by simp [hnt])
      have hmv : mergedValue (statusCheck probe kv.1 kv.2) = kv.2 := by
        rcases hall kv hm hnt with ⟨s, hps, hpend⟩ | ⟨e, hpe⟩
        · rw [statusCheck_probeOk probe hnt hps, hv]
          simp [mergedValue, hpend]
        · rw [statusCheck_probeError probe hnt hpe, hv]
          rfl
      exact hne hmv
    have hfalse : hasUpdatesOf (statusChecksOf probe clips) = false := by
      rcases Bool.eq_false_or_eq_true (hasUpdatesOf (statusChecksOf probe clips)) with h | h
      · exact absurd (hiff.mp h) hnone
      · exact h
    exact ⟨by simp [storeWrites, hfalse], by simp [persistedAfter, hfalse]⟩

/-- Witness for `storeWrites_iff_changed`: a two-entry map (one completed
URL, one pending) where the probe reports pending for every job — zero
writes and an unchanged persisted map. -/
theorem storeWrites_iff_changed_witness :
    storeWrites pendProbe [("j1", "http://cdn/x.mp4"), ("j2", "pending")] = 0 ∧
    persistedAfter pendProbe [("j1", "http://cdn/x.mp4"), ("j2", "pending")] =
      [("j1", "http://cdn/x.mp4"), ("j2", "pending")] := by
  have H := storeWrites_iff_changed pendProbe
    [("j1", "http://cdn/x.mp4"), ("j2", "pending")]
    (fun kv hkv => by
      rcases List.mem_cons.mp hkv with rfl | hkv
      · exact Or.inr (by decide)
      · rcases List.mem_cons.mp hkv with rfl | hkv
        · exact Or.inl rfl
        · cases hkv)
    (fun j s hs hc u hu => by
      have hse : ({ status := "pending" } : CheckStatus) = s := by
        injection hs
      rw [← hse] at hc
      exact absurd hc (by decide))
  exact H.2 (fun kv _ _ => Or.inl ⟨{ status := "pending" }, rfl, rfl⟩)

/-- **C10**: the `failed` count of the refresh response adds jobs whose
probe threw (status `"error"`) to jobs the provider reported `"failed"`;
a probe-error job is counted there, is not counted `"pending"` in the
response, yet its merged persisted value is still `"pending"`. -/
theorem failedCount_includes_probeErrors (probe : String → Except String CheckStatus)
    (clips : List (String × String)) (i : Nat) (k v e : String)
    (h : clips[i]? = some (k, v)) (ht : isTerminal v = false) (hp : probe k = .error e) :
    failedCountOf (statusChecksOf probe clips) =
      (statusChecksOf probe clips).countP (fun r => r.status == "failed") +
        (statusChecksOf probe clips).countP (fun r => r.status == "error") ∧
    (statusCheck probe k v).status = "error" ∧
    0 < failedCountOf (statusChecksOf probe clips) ∧
    ((statusCheck probe k v).status == "pending") = false ∧
    mergedValue (statusCheck probe k v) = "pending" := by
  have hsc := statusCheck_probeError probe ht hp
  refine ⟨countP_or_split _, by rw [hsc], ?_, by rw [hsc]; rfl, by rw [hsc]; rfl⟩
  have hmem : (k, v) ∈ clips := mem_of_getElem_eq h
  have hsmem : statusCheck probe k v ∈ statusChecksOf probe clips :=
    List.mem_map_of_mem (fun kv => statusCheck probe kv.1 kv.2) hmem
  refine List.countP_pos_iff.mpr ⟨statusCheck probe k v, hsmem, ?_⟩
  rw [hsc]
  rfl

/-- Witness for `failedCount_includes_probeErrors` at a singleton pending
map whose probe throws. -/
theorem failedCount_includes_probeErrors_witness :
    isTerminal "pending" = false ∧
    errProbe "j1" = .error "network unreachable" ∧
    failedCountOf (statusChecksOf errProbe [("j1", "pending")]) =
      (statusChecksOf errProbe [("j1", "pending")]).countP (fun r => r.status == "failed") +
        (statusChecksOf errProbe [("j1", "pending")]).countP (fun r => r.status == "error") ∧
    (statusCheck errProbe "j1" "pending").status = "error" ∧
    0 < failedCountOf (statusChecksOf errProbe [("j1", "pending")]) ∧
    ((statusCheck errProbe "j1" "pending").status == "pending") = false ∧
    mergedValue (statusCheck errProbe "j1" "pending") = "pending" := by
  have H := failedCount_includes_probeErrors errProbe [("j1", "pending")] 0 "j1"
    "pending" "network unreachable" (by decide) (by decide) rfl
  exact ⟨by decide, rfl, H.1, H.2.1, H.2.2.1, H.2.2.2.1, H.2.2.2.2⟩

/-- Concrete SDK for witnesses: scene `"3"` rejects; every other scene
returns a pending handle `"t" ++ key`. -/
def sdk5 : String → Except String (List SdkItem) :=
  fun k =>
    if k == "3" then .error "SubmissionError"
    else .ok [{ taskUUID := some ("t" ++ k) }]

/-- Concrete SDK for witnesses: scene `"1"` completes synchronously with a
CDN URL; scenes `"2"` and `"3"` return pending handles. -/
def sdkA : String → Except String (List SdkItem) :=
  fun k =>
    if k == "1" then
      .ok [{ taskUUID := some "u1", videoURL := some "https://cdn/x.mp4"
             status := some "completed" }]
    else if k == "2" then .ok [{ taskUUID := some "u2" }]
    else .ok [{ taskUUID := some "u3" }]

/-- **C6**: one unit's submission failure does not abort sibling
submissions.  Each unit is processed independently: a unit whose submission
throws is reported `success = false` with the error and writes no entry
into the persisted `clips` map, while any unit whose submission returns a
handle is reported `success = true` with that handle, at its position. -/
theorem submission_failure_isolated (sdk : String → Except String (List SdkItem))
    (sceneKeys : List String) (i j : Nat) (s t e : String) (r : VideoResult)
    (hi : sceneKeys[i]? = some s) (he : submitScene sdk s = .error e)
    (hj : sceneKeys[j]? = some t) (hr : submitScene sdk t = .ok r) :
    (generateResults sdk sceneKeys)[i]? =
      some { sceneKey := s, success := false, error := some e } ∧
    (generateResults sdk sceneKeys)[j]? =
      some { sceneKey := t, taskUUID := some r.taskUUID, success := true
             videoURL := r.videoURL } ∧
    (sceneSubmission sdk s).2 = none := by
  have hs1 : sceneSubmission sdk s =
      ({ sceneKey := s, success := false, error := some e }, none) := by
    unfold sceneSubmission
    rw [he]
  have hs2 : (sceneSubmission sdk t).1 =
      { sceneKey := t, taskUUID := some r.taskUUID, success := true
        videoURL := r.videoURL } := by
    unfold sceneSubmission
    rw [hr]
  refine ⟨?_, ?_, by rw [hs1]⟩
  · unfold generateResults
    rw [List.getElem?_map, hi, Option.map_some', hs1]
  · unfold generateResults
    rw [List.getElem?_map, hj, Option.map_some', hs2]

/-- Witness for `submission_failure_isolated`: five submission units where
unit 3 raises; the other four all appear with `success = true` and their
handles, and unit 3 contributes nothing to the map. -/
theorem submission_failure_isolated_witness :
    submitScene sdk5 "3" = .error "SubmissionError" ∧
    (generateResults sdk5 ["1", "2", "3", "4", "5"])[2]? =
      some { sceneKey := "3", success := false, error := some "SubmissionError" } ∧
    (sceneSubmission sdk5 "3").2 = none ∧
    (generateResults sdk5 ["1", "2", "3", "4", "5"])[0]? =
      some { sceneKey := "1", taskUUID := some "t1", success := true } ∧
    (generateResults sdk5 ["1", "2", "3", "4", "5"])[1]? =
      some { sceneKey := "2", taskUUID := some "t2", success := true } ∧
    (generateResults sdk5 ["1", "2", "3", "4", "5"])[3]? =
      some { sceneKey := "4", taskUUID := some "t4", success := true } ∧
    (generateResults sdk5 ["1", "2", "3", "4", "5"])[4]? =
      some { sceneKey := "5", taskUUID := some "t5", success := true } := by
  have H0 := submission_failure_isolated sdk5 ["1", "2", "3", "4", "5"] 2 0 "3" "1"
    "SubmissionError" { taskUUID := "t1", status := "pending" }
    (by decide) rfl (by decide) rfl
  have H1 := submission_failure_isolated sdk5 ["1", "2", "3", "4", "5"] 2 1 "3" "2"
    "SubmissionError" { taskUUID := "t2", status := "pending" }
    (by decide) rfl (by decide) rfl
  have H2 := submission_failure_isolated sdk5 ["1", "2", "3", "4", "5"] 2 3 "3" "4"
    "SubmissionError" { taskUUID := "t4", status := "pending" }
    (by decide) rfl (by decide) rfl
  have H3 := submission_failure_isolated sdk5 ["1", "2", "3", "4", "5"] 2 4 "3" "5"
    "SubmissionError" { taskUUID := "t5", status := "pending" }
    (by decide) rfl (by decide) rfl
  exact ⟨rfl, H0.1, H0.2.2, H0.2.1, H1.2.1, H2.2.1, H3.2.1⟩

/-- **C8**: a unit completed synchronously by the provider (truthy
`videoURL`) writes its artifact URL — not `"pending"` — into the persisted
map, and is counted under `completed` in the submit response. -/
theorem fastpath_completion (sdk : String → Except String (List SdkItem))
    (sceneKeys : List String) (i : Nat) (t : String) (r : VideoResult)
    (hget : sceneKeys[i]? = some t) (hok : submitScene sdk t = .ok r)
    (hfast : jsTruthy r.videoURL = true) :
    (sceneSubmission sdk t).2 = some (r.taskUUID, r.videoURL.getD "") ∧
    (r.taskUUID, r.videoURL.getD "") ∈ generateClipsMap sdk sceneKeys ∧
    0 < (generateClips sdk sceneKeys).completed := by
  have hs : (sceneSubmission sdk t).2 = some (r.taskUUID, r.videoURL.getD "") := by
    unfold sceneSubmission
    rw [hok]
    simp [hfast]
  refine ⟨hs, List.mem_filterMap.mpr ⟨t, mem_of_getElem_eq hget, hs⟩, ?_⟩
  have hmem : ({ sceneKey := t, taskUUID := some r.taskUUID, success := true,
                 videoURL := r.videoURL } : UnitResult) ∈ generateResults sdk sceneKeys := by
    have h1 : (sceneSubmission sdk t).1 =
        { sceneKey := t, taskUUID := some r.taskUUID, success := true
          videoURL := r.videoURL } := by
      unfold sceneSubmission
      rw [hok]
    exact h1 ▸ List.mem_map_of_mem (fun k => (sceneSubmission sdk k).1)
      (mem_of_getElem_eq hget)
  show 0 < (generateResults sdk sceneKeys).countP fun r => r.success && jsTruthy r.videoURL
  exact List.countP_pos_iff.mpr ⟨_, hmem, by simp [hfast]⟩

/-- Witness for `fastpath_completion`: Scenario A — three units, unit 1
completes immediately with `https://cdn/x.mp4`, units 2–3 pending — yields
`completed = 1, pending = 2, failed = 0` and a map with one URL and two
`"pending"` entries. -/
theorem fastpath_completion_witness :
    jsTruthy (some "https://cdn/x.mp4") = true ∧
    (sceneSubmission sdkA "1").2 = some ("u1", "https://cdn/x.mp4") ∧
    ("u1", "https://cdn/x.mp4") ∈ generateClipsMap sdkA ["1", "2", "3"] ∧
    0 < (generateClips sdkA ["1", "2", "3"]).completed ∧
    generateClips sdkA ["1", "2", "3"] =
      { total_clips := 3, completed := 1, pending := 2, failed := 0
        all_complete := false
        clips := [("u1", "https://cdn/x.mp4"), ("u2", "pending"), ("u3", "pending")] } := by
  have H := fastpath_completion sdkA ["1", "2", "3"] 0 "1"
    { taskUUID := "u1", videoURL := some "https://cdn/x.mp4", status := "completed" }
    (by decide) rfl (by decide)
  exact ⟨by decide, H.1, H.2.1, H.2.2, by decide⟩

/-- **C4**: the polling loop has no wall-clock budget.  As long as every
`check-clips-status` response still reports pending jobs, every iteration
invokes the endpoint, reports `allDone = false`, and reschedules the next
iteration — for arbitrarily many iterations, hence past any `maxWaitMs`
(the repository's own docs promise a 30-minute cap that the code does not
implement). -/
theorem pollRun_unbounded (m i c : Nat) (h : i + m ≤ c) :
    pollRun c i (List.replicate m (PollOutcome.response true 0 1 1)) =
      List.replicate m
        { invoked := true, report := some (0, 1, false), reschedule := true } := by
  induction m generalizing i with
  | zero => rfl
  | succ n ih =>
    have hstep : pollIteration (decide (i < c)) (PollOutcome.response true 0 1 1) =
        { invoked := true, report := some (0, 1, false), reschedule := true } := by
      rw [decide_eq_true (show i < c by omega)]
      rfl
    rw [List.replicate_succ, List.replicate_succ]
    show (if (pollIteration (decide (i < c)) (PollOutcome.response true 0 1 1)).reschedule
        then pollIteration (decide (i < c)) (PollOutcome.response true 0 1 1) ::
          pollRun c (i + 1) (List.replicate n (PollOutcome.response true 0 1 1))
        else [pollIteration (decide (i < c)) (PollOutcome.response true 0 1 1)]) = _
    rw [hstep]
    simp only [if_true]
    rw [ih (i + 1) (by omega)]

/-- Witness for `pollRun_unbounded`: at the code's default 15-second
interval, 121 iterations span at least 1,815,000 ms of wall clock — past
the documented 1,800,000 ms (30-minute) budget — and the loop still invokes
the endpoint and reschedules on every one of them. -/
theorem pollRun_unbounded_witness :
    0 + 121 ≤ 121 ∧ 1800000 < 121 * 15000 ∧
    pollRun 121 0 (List.replicate 121 (PollOutcome.response true 0 1 1)) =
      List.replicate 121
        { invoked := true, report := some (0, 1, false), reschedule := true } :=
  ⟨by decide, by decide, pollRun_unbounded 121 0 121 (by decide)⟩

/-- **C7**: once the cancellation handle has been invoked (every iteration
index from `cancelAt` on runs with `active = false`), a pending timer that
fires performs no work at all: it does not invoke `check-clips-status`
(hence no store reads or writes), reports nothing, and schedules nothing
further — whatever outcomes the trace would have produced. -/
theorem cancel_suppresses_polls (cancelAt i : Nat) (o : PollOutcome)
    (os : List PollOutcome) (h : cancelAt ≤ i) :
    pollRun cancelAt i (o :: os) =
      [{ invoked := false, report := none, reschedule := false }] := by
  have hd : decide (i < cancelAt) = false := decide_eq_false (by omega)
  show (if (pollIteration (decide (i < cancelAt)) o).reschedule
      then pollIteration (decide (i < cancelAt)) o :: pollRun cancelAt (i + 1) os
      else [pollIteration (decide (i < cancelAt)) o]) = _
  rw [hd]
  rfl

/-- Witness for `cancel_suppresses_polls`: cancellation before the first
iteration suppresses it even though jobs are still pending. -/
theorem cancel_suppresses_polls_witness :
    0 ≤ 0 ∧
    pollRun 0 0 [PollOutcome.response true 2 3 1] =
      [{ invoked := false, report := none, reschedule := false }] :=
  ⟨by decide, cancel_suppresses_polls 0 0 (PollOutcome.response true 2 3 1) [] (by decide)⟩

end FlashStoryLab
